import Mathlib

/-!
Shallow embedding of the libseymour GReader client library (src/index.ts).

The embedding models:
 - stream-ID canonicalization (`Reader.ensureStream`, `STREAM_TYPES`, `STREAM_PREFIXES`),
 - credential state and the constructor,
 - `getAuthToken`, `getPostToken` (the credential manager),
 - the private request engine `req` (parameter encoding, method-specific
   augmentation, credential attachment, response classification, and the
   refresh-and-retry protocol on POST 400/401),
 - the parameter builders of the public endpoint methods the claims touch
   (`setAllRead`, `_editItemTag`, `_editFeedTag`, `addFeed`, `removeFeed`,
   `renameTag`, `getItems`, `getItemIds`).

The network is modelled as an oracle: a list of scripted HTTP responses
consumed one per `fetch`, together with a log of the requests issued, so
that theorems can speak about how many requests were made and with what
method, URL and body.  JavaScript `undefined` becomes `Option.none`;
JavaScript string falsiness (undefined or empty) is `truthyS`.
-/

namespace Seymour

/-- JS `String.prototype.startsWith` on character lists. -/
def startsWithL : List Char → List Char → Bool
  | [], _ => true
  | _ :: _, [] => false
  | p :: ps, c :: cs => p = c && startsWithL ps cs

/-- JS `input.startsWith(p)` (argument order: pattern first). -/
def strStarts (p s : String) : Bool := startsWithL p.data s.data

/-- JS `body.split('\n')` on character lists: split at every newline,
keeping empty segments. -/
def splitNl : List Char → List (List Char)
  | [] => [[]]
  | c :: rest =>
    let r := splitNl rest
    if c = '\n' then [] :: r
    else
      match r with
      | [] => [[c]]
      | h :: t => (c :: h) :: t

/-- JS `s.replace(pat, '')` for a nonempty string pattern: remove the first
occurrence of `pat` from `s` (leave `s` unchanged when `pat` does not occur). -/
def removeFirst (pat : List Char) : List Char → List Char
  | [] => []
  | c :: rest =>
    if startsWithL pat (c :: rest) then (c :: rest).drop pat.length
    else c :: removeFirst pat rest

/-- The keys of `Reader.STREAM_TYPES`. -/
inductive StreamType
  | FEED
  | LABEL
  | STATE
deriving DecidableEq, Repr

/-- Model of `Reader.STREAM_TYPES` (src/index.ts lines 136-140). -/
def STREAM_TYPES : StreamType → String
  | .FEED => "feed/"
  | .LABEL => "user/-/label/"
  | .STATE => "user/-/state/com.google/"

/-- Model of `Reader.STREAM_PREFIXES = Object.values(Reader.STREAM_TYPES)`. -/
def STREAM_PREFIXES : List String :=
  [STREAM_TYPES .FEED, STREAM_TYPES .LABEL, STREAM_TYPES .STATE]

/-- Model of `Reader.STREAM_PREFIXES.some(p => input.startsWith(p))`, the canonical-form
test used by `ensureStream`, `setAllRead` and `_editItemTag`. -/
def isCanonicalStream (input : String) : Bool :=
  STREAM_PREFIXES.any fun p => strStarts p input

/-- Model of `Reader.ensureStream` (src/index.ts lines 553-560).  The
`if (!prefix) throw` branch of the source is unreachable here because
`StreamType` ranges over exactly the keys of `STREAM_TYPES`, which is also what
the TypeScript type `StreamType = keyof typeof Reader.STREAM_TYPES` enforces. -/
def ensureStream (input : String) (type : StreamType) : String :=
  if isCanonicalStream input then input
  else STREAM_TYPES type ++ input

/-- A parameter value: JS string or number (the library only passes strings
and integer timestamps/counts). -/
inductive PVal
  | s (v : String)
  | n (v : Int)
deriving DecidableEq, Repr

/-- JS `String(val)` on a parameter value. -/
def PVal.toStr : PVal → String
  | .s v => v
  | .n v => toString v

/-- The `Object.entries(params).filter(([, val]) => val !== undefined)
.map(([key, val]) => [key, String(val)])` step of `req`
(src/index.ts lines 616-621). -/
def encodeObj (ps : List (String × Option PVal)) : List (String × String) :=
  ps.filterMap fun kv => kv.2.map fun v => (kv.1, v.toStr)

/-- The `params` argument of `req`: either a plain object (keys to possibly
undefined scalars) or an already-built `URLSearchParams` (an ordered list of
key/value pairs).  The distinction matters because `req` mutates a passed-in
`URLSearchParams` in place and the retry re-uses it. -/
inductive Params
  | obj (ps : List (String × Option PVal))
  | usp (ps : List (String × String))
deriving DecidableEq, Repr

/-- Model of `params instanceof URLSearchParams ? params : new URLSearchParams(...)`. -/
def buildSearchParams : Params → List (String × String)
  | .obj ps => encodeObj ps
  | .usp ps => ps

inductive Method
  | GET
  | POST
deriving DecidableEq, Repr

/-- The expected response decoding of a request descriptor. -/
inductive RespType
  | json
  | text
  | raw
deriving DecidableEq, Repr

/-- A scripted HTTP response of the network oracle. -/
structure HttpResponse where
  status : Nat
  body : String
deriving DecidableEq, Repr

/-- JS `res.ok`: status in the inclusive range 200-299. -/
def resOk (res : HttpResponse) : Bool :=
  200 ≤ res.status && res.status ≤ 299

/-- One observed `fetch` call: method, final URL string, headers, and the
body (`some` encoded form pairs for POST, `none` for GET). -/
structure Request where
  method : Method
  url : String
  headers : List (String × String)
  body : Option (List (String × String))
deriving DecidableEq, Repr

/-- The network: scripted responses still to be served, and the log of
requests issued so far. -/
structure Net where
  responses : List HttpResponse
  log : List Request
deriving DecidableEq, Repr

/-- Model of `fetch`: consume the next scripted response and record the request.
`none` when the script is exhausted (a transport-level failure, outside the
behaviour the claims describe). -/
def doFetch (net : Net) (q : Request) : Option (HttpResponse × Net) :=
  match net.responses with
  | [] => none
  | res :: rest => some (res, ⟨rest, net.log ++ [q]⟩)

/-- JS truthiness of a possibly-undefined string: false iff undefined or empty. -/
def truthyS : Option String → Bool
  | none => false
  | some s => !(s == "")

/-- Model of `headers['Authorization'] = v`: set-or-replace an entry of a header map. -/
def setHeader (hs : List (String × String)) (k v : String) : List (String × String) :=
  if hs.any fun kv => kv.1 == k then
    hs.map fun kv => if kv.1 == k then (k, v) else kv
  else hs ++ [(k, v)]

/-- Hex digit for percent-encoding. -/
def hexDigit (n : Nat) : Char :=
  if n < 10 then Char.ofNat (48 + n) else Char.ofNat (55 + n)

/-- Is this byte an unreserved character of `encodeURIComponent`
(A-Z a-z 0-9 - _ . ! ~ * ' ( ))? -/
def uriUnreserved (b : Nat) : Bool :=
  (65 ≤ b && b ≤ 90) || (97 ≤ b && b ≤ 122) || (48 ≤ b && b ≤ 57) ||
  b == 45 || b == 95 || b == 46 || b == 33 || b == 126 || b == 42 ||
  b == 39 || b == 40 || b == 41

/-- The UTF-8 bytes of one character. -/
def utf8Bytes (c : Char) : List Nat :=
  let n := c.toNat
  if n < 128 then [n]
  else if n < 2048 then [192 + n / 64, 128 + n % 64]
  else if n < 65536 then [224 + n / 4096, 128 + (n / 64) % 64, 128 + n % 64]
  else [240 + n / 262144, 128 + (n / 4096) % 64, 128 + (n / 64) % 64, 128 + n % 64]

/-- JS `encodeURIComponent`: percent-encode every UTF-8 byte outside the
unreserved set. -/
def encodeURIComponent (s : String) : String :=
  String.mk <| (s.data.flatMap utf8Bytes).flatMap fun n =>
    if uriUnreserved n then [Char.ofNat n]
    else ['%', hexDigit (n / 16), hexDigit (n % 16)]

/-- Model of `URLSearchParams.toString()`: `k=v` pairs joined by `&`
(form-urlencoding; the unreserved-set difference from `encodeURIComponent`
is immaterial to every claim, which are stated on the structured pair lists). -/
def formEncode (ps : List (String × String)) : String :=
  String.intercalate "&" <|
    ps.map fun kv => encodeURIComponent kv.1 ++ "=" ++ encodeURIComponent kv.2

/-- The error taxonomy: `invalidArg` models locally thrown `Error`s
(the spec's `InvalidArgument`), `api` models `ApiError{message, status}`,
and `typeError` models the runtime `TypeError` of indexing past the end of
the split-line array in `getAuthToken`. -/
inductive Err
  | invalidArg (msg : String)
  | api (body : String) (status : Nat)
  | typeError
deriving DecidableEq, Repr

deriving instance DecidableEq for Except

/-- The client instance: configuration plus mutable credential state. -/
structure Reader where
  url : String
  urlAuth : String
  client : String
  autoPostToken : Bool
  tokenAuth : Option String := none
  tokenPost : Option String := none
deriving DecidableEq, Repr

def PATH_API : String := "/reader/api/0/"
def PATH_AUTH : String := "/accounts/ClientLogin"
def CLIENT : String := "libseymour"

/-- The `IConfig` constructor argument. -/
structure IConfig where
  url : String
  client : Option String := none
  autoPostToken : Option Bool := none
deriving DecidableEq, Repr

/-- The `Reader` constructor (src/index.ts lines 164-171).
`none` models the thrown `Error` when `config.url` is falsy;
`config.client || Reader.CLIENT` falls back on undefined or empty;
`config.autoPostToken ?? true` falls back only on undefined. -/
def mkReader (config : IConfig) : Option Reader :=
  if config.url == "" then none
  else some
    { url := config.url ++ PATH_API
      urlAuth := config.url ++ PATH_AUTH
      client := if truthyS config.client then config.client.getD "" else CLIENT
      autoPostToken := config.autoPostToken.getD true }

/-- Model of `setAuthToken` (src/index.ts lines 205-207). -/
def setAuthToken (r : Reader) (token : String) : Reader :=
  { r with tokenAuth := some token }

/-- Model of `setPostToken` (src/index.ts lines 240-242). -/
def setPostToken (r : Reader) (token : String) : Reader :=
  { r with tokenPost := some token }

/-- Model of `getPostToken` (src/index.ts lines 218-233): requires a truthy auth
token, GETs the token endpoint directly (not through `req`, so no query
augmentation) with the `GoogleLogin` header, and stores the raw body
verbatim as the post token on a 2xx response. -/
def getPostToken (r : Reader) (net : Net) : Option (Except Err String × Reader × Net) :=
  if !truthyS r.tokenAuth then
    some (.error (.invalidArg "no auth token; use getAuthToken() or setAuthToken() first"), r, net)
  else
    match doFetch net
      { method := .GET
        url := r.url ++ "token"
        headers := [("Authorization", "GoogleLogin auth=" ++ r.tokenAuth.getD "")]
        body := none } with
    | none => none
    | some (res, net2) =>
      if !resOk res then some (.error (.api res.body res.status), r, net2)
      else some (.ok res.body, setPostToken r res.body, net2)

/-- Model of `getAuthToken` (src/index.ts lines 179-198): rejects empty credentials
locally, POSTs the username/password pair to the auth endpoint, and on a 2xx
response takes `body.split('\n')[2]` (the third line — a fixed index, not a
search for an `Auth=` line), removes the first occurrence of `Auth=` from it,
stores the result as the auth token and returns it.  `typeError` models the
JS `TypeError` raised when the body has fewer than three lines. -/
def getAuthToken (r : Reader) (net : Net) (username password : String) :
    Option (Except Err String × Reader × Net) :=
  if username == "" || password == "" then
    some (.error (.invalidArg "missing username or password"), r, net)
  else
    match doFetch net
      { method := .POST
        url := r.urlAuth
        headers := []
        body := some [("Email", username), ("Passwd", password)] } with
    | none => none
    | some (res, net2) =>
      if !resOk res then some (.error (.api res.body res.status), r, net2)
      else
        match (splitNl res.body.data).get? 2 with
        | none => some (.error .typeError, r, net2)
        | some line =>
          let token := String.mk (removeFirst "Auth=".data line)
          some (.ok token, setAuthToken r token, net2)

/-- The request-descriptor argument of `req`. -/
structure ReqArgs where
  isRetry : Bool := false
  method : Method := .GET
  headers : List (String × String) := []
  params : Params := .obj []
  url : String
  type : RespType := .raw
deriving DecidableEq, Repr

/-- The private request engine `req` (src/index.ts lines 609-666), with an
explicit fuel bound for the recursion (the retry flag guarantees depth ≤ 2,
so callers pass fuel 2; `none` also covers oracle exhaustion).  `now` is
`Date.now()`.  Faithfully kept: the local `url` and `searchParams` variables
are mutated before the fetch, and the retry call passes the *mutated* `url`
and (for a `URLSearchParams` argument) the *mutated* `params` along. -/
def reqAux : Nat → Reader → Net → Nat → ReqArgs → Bool →
    Option (Except Err String × Reader × Net)
  | 0, _, _, _, _, _ => none
  | fuel + 1, r, net, now, a, noAuth =>
    let headers :=
      if truthyS r.tokenAuth && !noAuth then
        setHeader a.headers "Authorization" ("GoogleLogin auth=" ++ r.tokenAuth.getD "")
      else a.headers
    let searchParams := buildSearchParams a.params
    match a.method with
    | .GET =>
      let searchParams := searchParams ++
        [("ck", toString now), ("output", "json"), ("client", r.client)]
      let url := a.url ++ "?" ++ formEncode searchParams
      match doFetch net { method := .GET, url := url, headers := headers, body := none } with
      | none => none
      | some (res, net2) =>
        if resOk res then some (.ok res.body, r, net2)
        else some (.error (.api res.body res.status), r, net2)
    | .POST =>
      let searchParams :=
        if truthyS r.tokenPost then searchParams ++ [("T", r.tokenPost.getD "")]
        else searchParams
      let url := a.url ++ "?client=" ++ encodeURIComponent r.client
      match doFetch net { method := .POST, url := url, headers := headers, body := some searchParams } with
      | none => none
      | some (res, net2) =>
        if resOk res then some (.ok res.body, r, net2)
        else
          if r.autoPostToken && !a.isRetry && (res.status == 400 || res.status == 401) then
            match getPostToken r net2 with
            | none => none
            | some (.error e, r2, net3) => some (.error e, r2, net3)
            | some (.ok _, r2, net3) =>
              reqAux fuel r2 net3 now
                { isRetry := true
                  method := a.method
                  headers := headers
                  params := match a.params with
                            | .usp _ => .usp searchParams
                            | .obj ps => .obj ps
                  url := url
                  type := a.type }
                false
          else some (.error (.api res.body res.status), r, net2)

/-- Model of `this.req(descriptor)`: entry into the engine.  Fuel 2 is exact: the
only recursive call sets `isRetry`, whose guard forbids a second recursion,
so a non-retry descriptor needs depth at most 2 and a retry descriptor
depth 1.  `noAuth` is never set by any caller in src/index.ts. -/
def runReq (r : Reader) (net : Net) (now : Nat) (a : ReqArgs) :
    Option (Except Err String × Reader × Net) :=
  reqAux 2 r net now a false

/-- Model of `opts.continuation || undefined`: JS `||` sends falsy (undefined or
empty) strings to undefined. -/
def jsOrUndef : Option String → Option PVal
  | none => none
  | some s => if s == "" then none else some (.s s)

/-- Model of `IGetFeedItemOpts` (src/index.ts lines 35-48). -/
structure IGetFeedItemOpts where
  continuation : Option String := none
  exclude : Option String := none
  sMax : Option Int := none
  sMin : Option Int := none
  num : Option Int := none
  sort : Option String := none
deriving DecidableEq, Repr

/-- The `params` object built by `getItems` (src/index.ts lines 366-373). -/
def getItemsParams (opts : IGetFeedItemOpts) : List (String × Option PVal) :=
  [ ("c", jsOrUndef opts.continuation)
  , ("n", some (.n (match opts.num with | some n => n | none => 50)))
  , ("r", some (.s (if opts.sort == some "asc" then "o" else "d")))
  , ("xt", jsOrUndef opts.exclude)
  , ("ot", opts.sMin.map .n)
  , ("nt", opts.sMax.map .n) ]

/-- The target URL built by `getItems` (src/index.ts line 376): the stream
ID is canonicalized as a feed and URL-encoded into the path. -/
def getItemsUrl (r : Reader) (streamId : String) : String :=
  r.url ++ "stream/contents/" ++ encodeURIComponent (ensureStream streamId .FEED)

/-- Model of `getItems` (src/index.ts lines 363-387), up to the response-shape
post-processing (numeric coercion of item fields), which no claim touches:
the guard on an empty stream ID, the canonicalized URL, and the request. -/
def getItems (r : Reader) (net : Net) (now : Nat) (streamId : String)
    (opts : IGetFeedItemOpts) : Option (Except Err String × Reader × Net) :=
  if streamId == "" then some (.error (.invalidArg "Stream ID required"), r, net)
  else runReq r net now
    { url := getItemsUrl r streamId
      params := .obj (getItemsParams opts)
      type := .json }

/-- The `params` object built by `getItemIds` (src/index.ts lines 430-438). -/
def getItemIdsParams (streamId : String) (opts : IGetFeedItemOpts) :
    List (String × Option PVal) :=
  ("s", some (.s (ensureStream streamId .FEED))) :: getItemsParams opts

/-- Model of `getItemIds` (src/index.ts lines 427-447), up to extraction of the
`itemRefs` ids from the decoded response. -/
def getItemIds (r : Reader) (net : Net) (now : Nat) (streamId : String)
    (opts : IGetFeedItemOpts) : Option (Except Err String × Reader × Net) :=
  if streamId == "" then some (.error (.invalidArg "Stream ID required"), r, net)
  else runReq r net now
    { url := r.url ++ "stream/items/ids"
      params := .obj (getItemIdsParams streamId opts)
      type := .json }

/-- Model of `setAllRead` (src/index.ts lines 529-543): requires the stream ID to be
canonical already (it throws rather than canonicalizing), and omits `ts`
when no cutoff is supplied.  `usMax = none` models a call that leaves the
second argument undefined. -/
def setAllReadParams (streamId : String) (usMax : Option Int) :
    List (String × Option PVal) :=
  [("s", some (.s streamId)), ("ts", usMax.map .n)]

def setAllRead (r : Reader) (net : Net) (now : Nat) (streamId : String)
    (usMax : Option Int) : Option (Except Err String × Reader × Net) :=
  if !isCanonicalStream streamId then
    some (.error (.invalidArg ("invalid Stream ID (got " ++ streamId ++ ")")), r, net)
  else runReq r net now
    { method := .POST
      url := r.url ++ "mark-all-as-read"
      params := .obj (setAllReadParams streamId usMax)
      type := .text }

/-- Model of `_editFeed` (src/index.ts lines 562-569). -/
def editFeed (r : Reader) (net : Net) (now : Nat) (params : List (String × String)) :
    Option (Except Err String × Reader × Net) :=
  runReq r net now
    { method := .POST
      url := r.url ++ "subscription/edit"
      params := .usp params
      type := .text }

/-- The `URLSearchParams` built by `addFeed` (src/index.ts lines 280-295)
for the object form of its argument (`title`/`tag` undefined or empty are
skipped by the JS truthiness guards); the string form is the special case
`title = tag = none`. -/
def addFeedParams (url : String) (title tag : Option String) : List (String × String) :=
  [("ac", "subscribe"), ("s", ensureStream url .FEED)] ++
  (if truthyS title then [("t", title.getD "")] else []) ++
  (if truthyS tag then [("a", ensureStream (tag.getD "") .LABEL)] else [])

/-- Model of `addFeed` (src/index.ts lines 280-295): guard on a falsy URL, then
`_editFeed` with the subscribe parameter set. -/
def addFeed (r : Reader) (net : Net) (now : Nat) (url : String)
    (title tag : Option String) : Option (Except Err String × Reader × Net) :=
  if url == "" then some (.error (.invalidArg "url required"), r, net)
  else editFeed r net now (addFeedParams url title tag)

/-- Model of `removeFeed` (src/index.ts lines 303-311) on an already-arrayified
argument: each entry is canonicalized as a feed. -/
def removeFeedParams (feeds : List String) : List (String × String) :=
  ("ac", "unsubscribe") :: feeds.map fun id => ("s", ensureStream id .FEED)

def removeFeed (r : Reader) (net : Net) (now : Nat) (feeds : List String) :
    Option (Except Err String × Reader × Net) :=
  if feeds == [] then some (.error (.invalidArg "no feed(s) specified"), r, net)
  else editFeed r net now (removeFeedParams feeds)

/-- Model of `IEditFeed` (src/index.ts lines 28-33): a feed id or URL and a
new title (the source lets `title` be absent at runtime; `f.title ?? ''`
handles that). -/
structure IEditFeed where
  id : String
  title : Option String := none
deriving DecidableEq, Repr

/-- The `URLSearchParams` built by `renameFeed` (src/index.ts lines 323-328):
for each feed object, `s` canonicalized as a feed and `t` the new title
(empty when absent, via `?? ''`). -/
def renameFeedParams (feeds : List IEditFeed) : List (String × String) :=
  ("ac", "edit") ::
    feeds.flatMap fun f => [("s", ensureStream f.id .FEED), ("t", f.title.getD "")]

/-- Model of `renameFeed` (src/index.ts lines 319-331) on an
already-arrayified argument. -/
def renameFeed (r : Reader) (net : Net) (now : Nat) (feeds : List IEditFeed) :
    Option (Except Err String × Reader × Net) :=
  if feeds == [] then some (.error (.invalidArg "feed object(s) required"), r, net)
  else editFeed r net now (renameFeedParams feeds)

def editFeedTagParams (feeds : List String) (tag : String) (add : Bool) :
    List (String × String) :=
  (("ac", "edit") :: feeds.map fun id => ("s", ensureStream id .FEED)) ++
    [(if add then "a" else "r", ensureStream tag .LABEL)]

/-- Model of `_editFeedTag` (src/index.ts lines 571-585) on an already-arrayified
feed list: feeds canonicalized as feeds, the tag canonicalized as a label
under key `a` (add) or `r` (remove). -/
def editFeedTag (r : Reader) (net : Net) (now : Nat) (feeds : List String)
    (tag : String) (add : Bool) : Option (Except Err String × Reader × Net) :=
  if feeds == [] then some (.error (.invalidArg "no feed(s) specified"), r, net)
  else editFeed r net now (editFeedTagParams feeds tag add)

/-- Model of `renameTag` (src/index.ts lines 495-505): both tag names canonicalized
as labels. -/
def renameTagParams (tag newTag : String) : List (String × Option PVal) :=
  [ ("s", some (.s (ensureStream tag .LABEL)))
  , ("dest", some (.s (ensureStream newTag .LABEL))) ]

def renameTag (r : Reader) (net : Net) (now : Nat) (tag newTag : String) :
    Option (Except Err String × Reader × Net) :=
  runReq r net now
    { method := .POST
      url := r.url ++ "rename-tag"
      params := .obj (renameTagParams tag newTag)
      type := .text }

def editItemTagParams (itemIds tags : List String) (add : Bool) :
    List (String × String) :=
  (itemIds.map fun id => ("i", id)) ++
    tags.map fun t => ((if add then "a" else "r"), t)

/-- Model of `_editItemTag` (src/index.ts lines 587-607) on already-arrayified
arguments (`addItemTag` and `removeItemTag` are the `add = true` / `false`
instances; the emptiness guards model the falsiness check on the
pre-arrayified string arguments): every tag must already be in canonical
Stream ID form — the first non-canonical tag makes the call throw before any
request is issued. -/
def editItemTag (r : Reader) (net : Net) (now : Nat) (itemIds tags : List String)
    (add : Bool) : Option (Except Err String × Reader × Net) :=
  if itemIds == [] || tags == [] then
    some (.error (.invalidArg "itemId, tag, and mode required"), r, net)
  else
    match tags.find? (fun t => !isCanonicalStream t) with
    | some t =>
      some (.error (.invalidArg ("tags must be in Stream ID form (got " ++ t ++ ")")), r, net)
    | none => runReq r net now
        { method := .POST
          url := r.url ++ "edit-tag"
          params := .usp (editItemTagParams itemIds tags add)
          type := .text }

/-- Modelled from the spec: spec section 4.1 describes `getAuthToken` as
parsing the response body "(newline-delimited key=value lines) for the line
beginning with a known prefix" (`Auth=`, per section 6 and the scenario of
section 8) and stripping that prefix.  This definition follows those words —
the source instead always takes the line at fixed index 2 — so the two can
be compared. -/
def specAuthTokenLine (body : String) : Option String :=
  ((splitNl body.data).find? fun l => startsWithL "Auth=".data l).map
    fun l => String.mk (l.drop "Auth=".data.length)

/-- A concrete client with both tokens held, used by concrete runs. -/
def sampleReader : Reader :=
  { url := "u/"
    urlAuth := "ua"
    client := "cl"
    autoPostToken := true
    tokenAuth := some "AT"
    tokenPost := some "stale" }

/-- A concrete client with no tokens held. -/
def bareReader : Reader :=
  { url := "u/"
    urlAuth := "ua"
    client := "cl"
    autoPostToken := true }

/-- The client the section-8 scenario constructs:
`new Reader({ url: "https://example.com/api" })`. -/
def exampleReader : Reader :=
  { url := "https://example.com/api" ++ PATH_API
    urlAuth := "https://example.com/api" ++ PATH_AUTH
    client := CLIENT
    autoPostToken := true }

/-! ## Helper lemmas -/

theorem startsWithL_append (p x : List Char) : startsWithL p (p ++ x) = true := by
  induction p with
  | nil => rfl
  | cons c cs ih => simp [startsWithL, ih]

theorem strStarts_append (p x : String) : strStarts p (p ++ x) = true := by
  rw [strStarts, String.data_append]
  exact startsWithL_append p.data x.data

theorem streamTypes_mem_prefixes (t : StreamType) : STREAM_TYPES t ∈ STREAM_PREFIXES := by
  cases t <;> simp [STREAM_PREFIXES]

theorem isCanonicalStream_append (t : StreamType) (x : String) :
    isCanonicalStream (STREAM_TYPES t ++ x) = true := by
  rw [isCanonicalStream, List.any_eq_true]
  exact ⟨STREAM_TYPES t, streamTypes_mem_prefixes t, strStarts_append _ _⟩

theorem ensureStream_id {x : String} (t : StreamType) (h : isCanonicalStream x = true) :
    ensureStream x t = x := by
  simp [ensureStream, h]

theorem ensureStream_pfx {x : String} (t : StreamType) (h : isCanonicalStream x = false) :
    ensureStream x t = STREAM_TYPES t ++ x := by
  simp [ensureStream, h]

theorem encodeObj_mem {ps : List (String × Option PVal)} {k : String} {v : PVal}
    (h : (k, some v) ∈ ps) : (k, v.toStr) ∈ encodeObj ps := by
  rw [encodeObj, List.mem_filterMap]
  exact ⟨(k, some v), h, rfl⟩

theorem encodeObj_cons_some (k : String) (v : PVal) (ps : List (String × Option PVal)) :
    encodeObj ((k, some v) :: ps) = (k, v.toStr) :: encodeObj ps := by
  simp [encodeObj]

/-! ## Claims -/

/-- C5: on inputs already starting with one of the three canonical prefixes
`ensureStream` is the identity; on inputs starting with none of them it
prepends exactly the requested stream type's canonical string, exactly once;
and it is idempotent. -/
theorem ensureStream_spec (x : String) (t : StreamType) :
    (isCanonicalStream x = true → ensureStream x t = x) ∧
    (isCanonicalStream x = false → ensureStream x t = STREAM_TYPES t ++ x) ∧
    ensureStream (ensureStream x t) t = ensureStream x t := by
  refine ⟨ensureStream_id t, ensureStream_pfx t, ?_⟩
  cases h : isCanonicalStream x with
  | true => rw [ensureStream_id t h, ensureStream_id t h]
  | false =>
    rw [ensureStream_pfx t h, ensureStream_id t (isCanonicalStream_append t x)]

/-- Witness for C5 at a bare feed URL and at a canonical stream ID. -/
theorem ensureStream_spec_witness :
    isCanonicalStream "http://x.com/a" = false ∧
    ensureStream "http://x.com/a" StreamType.FEED =
      STREAM_TYPES StreamType.FEED ++ "http://x.com/a" :=
  ⟨by decide, (ensureStream_spec "http://x.com/a" StreamType.FEED).2.1 (by decide)⟩

/-- C8: `getAuthToken` with an empty username or password, and
`getPostToken` without a (truthy) auth token, fail with the local
`InvalidArgument`-class error, issue no network request (the oracle is
untouched, so the log gains nothing), and leave the credential state (the
whole `Reader`) unchanged. -/
theorem local_precondition_errors :
    (∀ (r : Reader) (net : Net) (u p : String), u = "" ∨ p = "" →
      getAuthToken r net u p =
        some (.error (.invalidArg "missing username or password"), r, net)) ∧
    (∀ (r : Reader) (net : Net), truthyS r.tokenAuth = false →
      getPostToken r net =
        some (.error
          (.invalidArg "no auth token; use getAuthToken() or setAuthToken() first"),
          r, net)) := by
  constructor
  · rintro r net u p (rfl | rfl) <;> simp [getAuthToken]
  · intro r net h
    simp [getPostToken, h]

/-- Witness for C8 at concrete inputs. -/
theorem local_precondition_errors_witness :
    (("" : String) = "" ∨ ("pw" : String) = "") ∧
    getAuthToken bareReader ⟨[], []⟩ "" "pw" =
      some (.error (.invalidArg "missing username or password"), bareReader, ⟨[], []⟩) ∧
    truthyS bareReader.tokenAuth = false ∧
    getPostToken bareReader ⟨[], []⟩ =
      some (.error
        (.invalidArg "no auth token; use getAuthToken() or setAuthToken() first"),
        bareReader, ⟨[], []⟩) :=
  ⟨Or.inl rfl,
   local_precondition_errors.1 bareReader ⟨[], []⟩ "" "pw" (Or.inl rfl),
   by decide,
   local_precondition_errors.2 bareReader ⟨[], []⟩ (by decide)⟩

/-- C10: when `num` is omitted, both `getItems` and `getItemIds` encode
`n=50`; when `sort` is omitted or is not `asc`, both encode `r=d`; and
`sort = asc` encodes `r=o`. -/
theorem getItems_defaults (sid : String) (opts : IGetFeedItemOpts) :
    (opts.num = none →
      ("n", "50") ∈ encodeObj (getItemsParams opts) ∧
      ("n", "50") ∈ encodeObj (getItemIdsParams sid opts)) ∧
    (opts.sort ≠ some "asc" →
      ("r", "d") ∈ encodeObj (getItemsParams opts) ∧
      ("r", "d") ∈ encodeObj (getItemIdsParams sid opts)) ∧
    (opts.sort = some "asc" →
      ("r", "o") ∈ encodeObj (getItemsParams opts) ∧
      ("r", "o") ∈ encodeObj (getItemIdsParams sid opts)) := by
  have h50 : PVal.toStr (PVal.n 50) = "50" := by decide
  refine ⟨fun hnum => ?_, fun hsort => ?_, fun hsort => ?_⟩
  · have hm : ("n", some (PVal.n 50)) ∈ getItemsParams opts := by
      simp [getItemsParams, hnum]
    have he := encodeObj_mem hm
    rw [h50] at he
    refine ⟨he, ?_⟩
    rw [getItemIdsParams, encodeObj_cons_some]
    exact List.mem_cons_of_mem _ he
  · have hb : (opts.sort == some "asc") = false := by
      rw [beq_eq_false_iff_ne]
      exact hsort
    have hm : ("r", some (PVal.s "d")) ∈ getItemsParams opts := by
      simp [getItemsParams, hb]
    have he := encodeObj_mem hm
    refine ⟨he, ?_⟩
    rw [getItemIdsParams, encodeObj_cons_some]
    exact List.mem_cons_of_mem _ he
  · have hb : (opts.sort == some "asc") = true := by
      rw [beq_iff_eq]
      exact hsort
    have hm : ("r", some (PVal.s "o")) ∈ getItemsParams opts := by
      simp [getItemsParams, hb]
    have he := encodeObj_mem hm
    refine ⟨he, ?_⟩
    rw [getItemIdsParams, encodeObj_cons_some]
    exact List.mem_cons_of_mem _ he

/-- Witness for C10 with empty options. -/
theorem getItems_defaults_witness :
    (({} : IGetFeedItemOpts).num = none) ∧
    ("n", "50") ∈ encodeObj (getItemsParams {}) ∧
    ("n", "50") ∈ encodeObj (getItemIdsParams "feed/f" {}) ∧
    (({} : IGetFeedItemOpts).sort ≠ some "asc") ∧
    ("r", "d") ∈ encodeObj (getItemsParams {}) ∧
    ("r", "d") ∈ encodeObj (getItemIdsParams "feed/f" {}) :=
  ⟨rfl,
   ((getItems_defaults "feed/f" {}).1 rfl).1,
   ((getItems_defaults "feed/f" {}).1 rfl).2,
   by decide,
   ((getItems_defaults "feed/f" {}).2.1 (by decide)).1,
   ((getItems_defaults "feed/f" {}).2.1 (by decide)).2⟩

/-- C6: a key appears in the encoded parameter list iff it was supplied with
a defined value (undefined values are dropped entirely, never serialized);
and a mark-all-read call with a canonical stream ID and no time cutoff sends
a body without any `ts` key (the only caller-supplied parameter sent is
`s`, plus the engine's own post-token key `T` when a post token is held). -/
theorem undefined_params_dropped :
    (∀ (ps : List (String × Option PVal)) (k : String),
      (k ∈ (encodeObj ps).map Prod.fst) ↔ ∃ v, (k, some v) ∈ ps) ∧
    (∀ (r : Reader) (L : List Request) (res : HttpResponse)
       (rest : List HttpResponse) (now : Nat) (sid : String),
      isCanonicalStream sid = true → resOk res = true →
      ∃ q : Request,
        setAllRead r ⟨res :: rest, L⟩ now sid none =
          some (.ok res.body, r, ⟨rest, L ++ [q]⟩) ∧
        ∃ b, q.body = some b ∧ "ts" ∉ b.map Prod.fst ∧ ("s", sid) ∈ b) := by
  constructor
  · intro ps k
    constructor
    · intro h
      rw [List.mem_map] at h
      obtain ⟨pr, hpr, hk⟩ := h
      rw [encodeObj, List.mem_filterMap] at hpr
      obtain ⟨⟨k2, ov⟩, hmem, hf⟩ := hpr
      cases ov with
      | none => simp at hf
      | some v =>
        simp at hf
        rw [← hf] at hk
        simp only at hk
        rw [← hk]
        exact ⟨v, hmem⟩
    · rintro ⟨v, hv⟩
      rw [List.mem_map]
      exact ⟨(k, v.toStr), encodeObj_mem hv, rfl⟩
  · intro r L res rest now sid hcanon hok
    have hsp : encodeObj (setAllReadParams sid none) = [("s", sid)] := by
      simp [setAllReadParams, encodeObj, PVal.toStr]
    cases hta : truthyS r.tokenAuth <;> cases htp : truthyS r.tokenPost
    · refine ⟨⟨.POST, r.url ++ "mark-all-as-read" ++ "?client=" ++ encodeURIComponent r.client,
        [], some [("s", sid)]⟩, ?_, [("s", sid)], rfl, by simp, by simp⟩
      simp [setAllRead, hcanon, runReq, reqAux, doFetch, buildSearchParams, hsp,
        hta, htp, hok, setHeader]
    · refine ⟨⟨.POST, r.url ++ "mark-all-as-read" ++ "?client=" ++ encodeURIComponent r.client,
        [], some [("s", sid), ("T", r.tokenPost.getD "")]⟩, ?_,
        [("s", sid), ("T", r.tokenPost.getD "")], rfl, by simp, by simp⟩
      simp [setAllRead, hcanon, runReq, reqAux, doFetch, buildSearchParams, hsp,
        hta, htp, hok, setHeader]
    · refine ⟨⟨.POST, r.url ++ "mark-all-as-read" ++ "?client=" ++ encodeURIComponent r.client,
        [("Authorization", "GoogleLogin auth=" ++ r.tokenAuth.getD "")],
        some [("s", sid)]⟩, ?_, [("s", sid)], rfl, by simp, by simp⟩
      simp [setAllRead, hcanon, runReq, reqAux, doFetch, buildSearchParams, hsp,
        hta, htp, hok, setHeader]
    · refine ⟨⟨.POST, r.url ++ "mark-all-as-read" ++ "?client=" ++ encodeURIComponent r.client,
        [("Authorization", "GoogleLogin auth=" ++ r.tokenAuth.getD "")],
        some [("s", sid), ("T", r.tokenPost.getD "")]⟩, ?_,
        [("s", sid), ("T", r.tokenPost.getD "")], rfl, by simp, by simp⟩
      simp [setAllRead, hcanon, runReq, reqAux, doFetch, buildSearchParams, hsp,
        hta, htp, hok, setHeader]

/-- Witness for C6: a concrete mark-all-read run with no cutoff. -/
theorem undefined_params_dropped_witness :
    isCanonicalStream "feed/f" = true ∧
    resOk ⟨200, "OK"⟩ = true ∧
    (∃ q : Request,
      setAllRead sampleReader ⟨[⟨200, "OK"⟩], []⟩ 7 "feed/f" none =
        some (.ok "OK", sampleReader, ⟨[], [] ++ [q]⟩) ∧
      ∃ b, q.body = some b ∧ "ts" ∉ b.map Prod.fst ∧ ("s", "feed/f") ∈ b) :=
  ⟨by decide, by decide,
   undefined_params_dropped.2 sampleReader [] ⟨200, "OK"⟩ [] 7 "feed/f"
     (by decide) (by decide)⟩

/-- C3: a GET request whose response is any non-2xx status issues exactly
one fetch (so no post-token refresh happens), leaves the client state
unchanged, and fails with `ApiError` carrying that status and the raw
response body. -/
theorem get_no_retry :
    ∀ (r : Reader) (L : List Request) (res : HttpResponse) (rest : List HttpResponse)
      (now : Nat) (a : ReqArgs), a.method = .GET → resOk res = false →
      ∃ q : Request, q.method = .GET ∧
        runReq r ⟨res :: rest, L⟩ now a =
          some (.error (.api res.body res.status), r, ⟨rest, L ++ [q]⟩) := by
  intro r L res rest now a hm hok
  obtain ⟨ir, m, hs, ps, u, ty⟩ := a
  dsimp only at hm
  subst hm
  cases hta : truthyS r.tokenAuth
  · refine ⟨⟨.GET, u ++ "?" ++ formEncode (buildSearchParams ps ++
      [("ck", toString now), ("output", "json"), ("client", r.client)]), hs, none⟩,
      rfl, ?_⟩
    simp [runReq, reqAux, doFetch, hta, hok]
  · refine ⟨⟨.GET, u ++ "?" ++ formEncode (buildSearchParams ps ++
      [("ck", toString now), ("output", "json"), ("client", r.client)]),
      setHeader hs "Authorization" ("GoogleLogin auth=" ++ r.tokenAuth.getD ""),
      none⟩, rfl, ?_⟩
    simp [runReq, reqAux, doFetch, hta, hok]

/-- Witness for C3: a concrete GET receiving a 401. -/
theorem get_no_retry_witness :
    (⟨false, .GET, [], .obj [], "u/tag/list", .json⟩ : ReqArgs).method = .GET ∧
    resOk ⟨401, "denied"⟩ = false ∧
    ∃ q : Request, q.method = .GET ∧
      runReq sampleReader ⟨[⟨401, "denied"⟩], []⟩ 7
          ⟨false, .GET, [], .obj [], "u/tag/list", .json⟩ =
        some (.error (.api "denied" 401), sampleReader, ⟨[], [] ++ [q]⟩) :=
  ⟨rfl, by decide,
   get_no_retry sampleReader [] ⟨401, "denied"⟩ [] 7
     ⟨false, .GET, [], .obj [], "u/tag/list", .json⟩ rfl (by decide)⟩

/-- C9: a client constructed with `autoPostToken: false` records that flag,
and with the flag off a POST receiving 400 or 401 issues exactly one fetch
(so no post-token refresh, even on a first attempt), leaves the client
unchanged, and fails with `ApiError` carrying that status and raw body. -/
theorem autoPostToken_off :
    (∀ (url : String) (c : Option String), ¬url = "" →
      (mkReader { url := url, client := c, autoPostToken := some false }).map
        (fun rd => rd.autoPostToken) = some false) ∧
    (∀ (r : Reader) (L : List Request) (res : HttpResponse)
       (rest : List HttpResponse) (now : Nat) (a : ReqArgs),
      r.autoPostToken = false → a.method = .POST →
      (res.status = 400 ∨ res.status = 401) →
      ∃ q : Request, q.method = .POST ∧
        runReq r ⟨res :: rest, L⟩ now a =
          some (.error (.api res.body res.status), r, ⟨rest, L ++ [q]⟩)) := by
  constructor
  · intro url c h
    have hb : (url == "") = false := by
      rw [beq_eq_false_iff_ne]
      exact h
    simp [mkReader, hb]
  · intro r L res rest now a hauto hm hst
    have hok : resOk res = false := by
      rcases hst with h | h <;> simp [resOk, h]
    obtain ⟨ir, m, hs, ps, u, ty⟩ := a
    dsimp only at hm
    subst hm
    cases hta : truthyS r.tokenAuth
    · refine ⟨⟨.POST, u ++ "?client=" ++ encodeURIComponent r.client, hs,
        some (if truthyS r.tokenPost then
          buildSearchParams ps ++ [("T", r.tokenPost.getD "")]
        else buildSearchParams ps)⟩, rfl, ?_⟩
      simp [runReq, reqAux, doFetch, hta, hok, hauto]
    · refine ⟨⟨.POST, u ++ "?client=" ++ encodeURIComponent r.client,
        setHeader hs "Authorization" ("GoogleLogin auth=" ++ r.tokenAuth.getD ""),
        some (if truthyS r.tokenPost then
          buildSearchParams ps ++ [("T", r.tokenPost.getD "")]
        else buildSearchParams ps)⟩, rfl, ?_⟩
      simp [runReq, reqAux, doFetch, hta, hok, hauto]

/-- Witness for C9: constructing with `autoPostToken: false` and a concrete
POST receiving 401 with no retry. -/
theorem autoPostToken_off_witness :
    ¬("b" : String) = "" ∧
    (mkReader { url := "b", client := some "cl", autoPostToken := some false }).map
      (fun rd => rd.autoPostToken) = some false ∧
    ∃ q : Request, q.method = .POST ∧
      runReq { sampleReader with autoPostToken := false }
          ⟨[⟨401, "denied"⟩, ⟨200, "tok"⟩], []⟩ 7
          ⟨false, .POST, [], .usp [("i", "x")], "u/edit-tag", .text⟩ =
        some (.error (.api "denied" 401),
          { sampleReader with autoPostToken := false },
          ⟨[⟨200, "tok"⟩], [] ++ [q]⟩) :=
  ⟨by decide,
   autoPostToken_off.1 "b" (some "cl") (by decide),
   autoPostToken_off.2 { sampleReader with autoPostToken := false } []
     ⟨401, "denied"⟩ [⟨200, "tok"⟩] 7
     ⟨false, .POST, [], .usp [("i", "x")], "u/edit-tag", .text⟩
     rfl rfl (Or.inr rfl)⟩

/-- C1: a first-attempt POST answered with 400 or 401 (auto retry on, auth
token held so the post token is refreshable) performs exactly one post-token
refresh followed by exactly one retried request — three fetches in all, the
middle one a GET of the token endpoint; a 401 on the retried request makes
the call fail with `ApiError` status 401 with no further fetch; and when the
refresh itself fails, its own `ApiError` (status and body of the token
response) propagates unmasked, with no retried request ever issued. -/
theorem post_retry_protocol :
    ∀ (r : Reader) (L : List Request) (res1 resT res2 : HttpResponse)
      (rest : List HttpResponse) (now : Nat) (a : ReqArgs),
      r.autoPostToken = true →
      truthyS r.tokenAuth = true →
      a.method = .POST → a.isRetry = false →
      (res1.status = 400 ∨ res1.status = 401) →
      (resOk resT = true →
        ∃ (q1 q2 q3 : Request) (out : Except Err String),
          runReq r ⟨res1 :: resT :: res2 :: rest, L⟩ now a =
            some (out, setPostToken r resT.body, ⟨rest, L ++ [q1, q2, q3]⟩) ∧
          q1.method = .POST ∧
          q2.method = .GET ∧ q2.url = r.url ++ "token" ∧ q2.body = none ∧
          q3.method = .POST ∧
          (res2.status = 401 → out = .error (.api res2.body 401))) ∧
      (resOk resT = false →
        ∃ (q1 q2 : Request),
          runReq r ⟨res1 :: resT :: res2 :: rest, L⟩ now a =
            some (.error (.api resT.body resT.status), r,
              ⟨res2 :: rest, L ++ [q1, q2]⟩) ∧
          q1.method = .POST ∧
          q2.method = .GET ∧ q2.url = r.url ++ "token" ∧ q2.body = none) := by
  intro r L res1 resT res2 rest now a hauto htruthy hm hir h45
  have hok1 : resOk res1 = false := by
    rcases h45 with h | h <;> simp [resOk, h]
  have hcond : (res1.status == 400 || res1.status == 401) = true := by
    rcases h45 with h | h <;> simp [h]
  obtain ⟨ir, m, hs, ps, u, ty⟩ := a
  dsimp only at hm hir
  subst hm
  subst hir
  constructor
  · intro hT
    have h401ok : res2.status = 401 → resOk res2 = false := by
      intro h
      simp [resOk, h]
    cases ps with
    | obj l =>
      cases hok2 : resOk res2 with
      | false =>
        cases hpb : resT.body == "" with
        | false =>
          have htPB : truthyS (some resT.body) = true := by
            simp [truthyS, hpb]
          refine ⟨⟨.POST, u ++ "?client=" ++ encodeURIComponent r.client,
            setHeader hs "Authorization" ("GoogleLogin auth=" ++ r.tokenAuth.getD ""),
            some (if truthyS r.tokenPost then encodeObj l ++ [("T", r.tokenPost.getD "")] else encodeObj l)⟩,
            ⟨.GET, r.url ++ "token",
              [("Authorization", "GoogleLogin auth=" ++ r.tokenAuth.getD "")], none⟩,
            ⟨.POST, u ++ "?client=" ++ encodeURIComponent r.client
                ++ "?client=" ++ encodeURIComponent r.client,
              setHeader (setHeader hs "Authorization" ("GoogleLogin auth=" ++ r.tokenAuth.getD ""))
                "Authorization" ("GoogleLogin auth=" ++ r.tokenAuth.getD ""),
              some (encodeObj l ++ [("T", resT.body)])⟩,
            .error (.api res2.body res2.status), ?_, rfl, rfl, rfl, rfl, rfl, fun h4 => by rw [h4]⟩
          simp [runReq, reqAux, doFetch, getPostToken, setPostToken,
              buildSearchParams, htruthy, hauto, hok1, hcond, hT, hok2, htPB]
        | true =>
          have htPB : truthyS (some resT.body) = false := by
            simp [truthyS, hpb]
          refine ⟨⟨.POST, u ++ "?client=" ++ encodeURIComponent r.client,
            setHeader hs "Authorization" ("GoogleLogin auth=" ++ r.tokenAuth.getD ""),
            some (if truthyS r.tokenPost then encodeObj l ++ [("T", r.tokenPost.getD "")] else encodeObj l)⟩,
            ⟨.GET, r.url ++ "token",
              [("Authorization", "GoogleLogin auth=" ++ r.tokenAuth.getD "")], none⟩,
            ⟨.POST, u ++ "?client=" ++ encodeURIComponent r.client
                ++ "?client=" ++ encodeURIComponent r.client,
              setHeader (setHeader hs "Authorization" ("GoogleLogin auth=" ++ r.tokenAuth.getD ""))
                "Authorization" ("GoogleLogin auth=" ++ r.tokenAuth.getD ""),
              some (encodeObj l)⟩,
            .error (.api res2.body res2.status), ?_, rfl, rfl, rfl, rfl, rfl, fun h4 => by rw [h4]⟩
          simp [runReq, reqAux, doFetch, getPostToken, setPostToken,
              buildSearchParams, htruthy, hauto, hok1, hcond, hT, hok2, htPB]
      | true =>
        cases hpb : resT.body == "" with
        | false =>
          have htPB : truthyS (some resT.body) = true := by
            simp [truthyS, hpb]
          refine ⟨⟨.POST, u ++ "?client=" ++ encodeURIComponent r.client,
            setHeader hs "Authorization" ("GoogleLogin auth=" ++ r.tokenAuth.getD ""),
            some (if truthyS r.tokenPost then encodeObj l ++ [("T", r.tokenPost.getD "")] else encodeObj l)⟩,
            ⟨.GET, r.url ++ "token",
              [("Authorization", "GoogleLogin auth=" ++ r.tokenAuth.getD "")], none⟩,
            ⟨.POST, u ++ "?client=" ++ encodeURIComponent r.client
                ++ "?client=" ++ encodeURIComponent r.client,
              setHeader (setHeader hs "Authorization" ("GoogleLogin auth=" ++ r.tokenAuth.getD ""))
                "Authorization" ("GoogleLogin auth=" ++ r.tokenAuth.getD ""),
              some (encodeObj l ++ [("T", resT.body)])⟩,
            .ok res2.body, ?_, rfl, rfl, rfl, rfl, rfl, fun h4 => ?_⟩
          · simp [runReq, reqAux, doFetch, getPostToken, setPostToken,
              buildSearchParams, htruthy, hauto, hok1, hcond, hT, hok2, htPB]
          · rw [h401ok h4] at hok2
            exact Bool.noConfusion hok2
        | true =>
          have htPB : truthyS (some resT.body) = false := by
            simp [truthyS, hpb]
          refine ⟨⟨.POST, u ++ "?client=" ++ encodeURIComponent r.client,
            setHeader hs "Authorization" ("GoogleLogin auth=" ++ r.tokenAuth.getD ""),
            some (if truthyS r.tokenPost then encodeObj l ++ [("T", r.tokenPost.getD "")] else encodeObj l)⟩,
            ⟨.GET, r.url ++ "token",
              [("Authorization", "GoogleLogin auth=" ++ r.tokenAuth.getD "")], none⟩,
            ⟨.POST, u ++ "?client=" ++ encodeURIComponent r.client
                ++ "?client=" ++ encodeURIComponent r.client,
              setHeader (setHeader hs "Authorization" ("GoogleLogin auth=" ++ r.tokenAuth.getD ""))
                "Authorization" ("GoogleLogin auth=" ++ r.tokenAuth.getD ""),
              some (encodeObj l)⟩,
            .ok res2.body, ?_, rfl, rfl, rfl, rfl, rfl, fun h4 => ?_⟩
          · simp [runReq, reqAux, doFetch, getPostToken, setPostToken,
              buildSearchParams, htruthy, hauto, hok1, hcond, hT, hok2, htPB]
          · rw [h401ok h4] at hok2
            exact Bool.noConfusion hok2
    | usp l =>
      cases hok2 : resOk res2 with
      | false =>
        cases hpb : resT.body == "" with
        | false =>
          have htPB : truthyS (some resT.body) = true := by
            simp [truthyS, hpb]
          refine ⟨⟨.POST, u ++ "?client=" ++ encodeURIComponent r.client,
            setHeader hs "Authorization" ("GoogleLogin auth=" ++ r.tokenAuth.getD ""),
            some (if truthyS r.tokenPost then l ++ [("T", r.tokenPost.getD "")] else l)⟩,
            ⟨.GET, r.url ++ "token",
              [("Authorization", "GoogleLogin auth=" ++ r.tokenAuth.getD "")], none⟩,
            ⟨.POST, u ++ "?client=" ++ encodeURIComponent r.client
                ++ "?client=" ++ encodeURIComponent r.client,
              setHeader (setHeader hs "Authorization" ("GoogleLogin auth=" ++ r.tokenAuth.getD ""))
                "Authorization" ("GoogleLogin auth=" ++ r.tokenAuth.getD ""),
              some ((if truthyS r.tokenPost then l ++ [("T", r.tokenPost.getD "")] else l) ++ [("T", resT.body)])⟩,
            .error (.api res2.body res2.status), ?_, rfl, rfl, rfl, rfl, rfl, fun h4 => by rw [h4]⟩
          simp [runReq, reqAux, doFetch, getPostToken, setPostToken,
              buildSearchParams, htruthy, hauto, hok1, hcond, hT, hok2, htPB]
        | true =>
          have htPB : truthyS (some resT.body) = false := by
            simp [truthyS, hpb]
          refine ⟨⟨.POST, u ++ "?client=" ++ encodeURIComponent r.client,
            setHeader hs "Authorization" ("GoogleLogin auth=" ++ r.tokenAuth.getD ""),
            some (if truthyS r.tokenPost then l ++ [("T", r.tokenPost.getD "")] else l)⟩,
            ⟨.GET, r.url ++ "token",
              [("Authorization", "GoogleLogin auth=" ++ r.tokenAuth.getD "")], none⟩,
            ⟨.POST, u ++ "?client=" ++ encodeURIComponent r.client
                ++ "?client=" ++ encodeURIComponent r.client,
              setHeader (setHeader hs "Authorization" ("GoogleLogin auth=" ++ r.tokenAuth.getD ""))
                "Authorization" ("GoogleLogin auth=" ++ r.tokenAuth.getD ""),
              some ((if truthyS r.tokenPost then l ++ [("T", r.tokenPost.getD "")] else l))⟩,
            .error (.api res2.body res2.status), ?_, rfl, rfl, rfl, rfl, rfl, fun h4 => by rw [h4]⟩
          simp [runReq, reqAux, doFetch, getPostToken, setPostToken,
              buildSearchParams, htruthy, hauto, hok1, hcond, hT, hok2, htPB]
      | true =>
        cases hpb : resT.body == "" with
        | false =>
          have htPB : truthyS (some resT.body) = true := by
            simp [truthyS, hpb]
          refine ⟨⟨.POST, u ++ "?client=" ++ encodeURIComponent r.client,
            setHeader hs "Authorization" ("GoogleLogin auth=" ++ r.tokenAuth.getD ""),
            some (if truthyS r.tokenPost then l ++ [("T", r.tokenPost.getD "")] else l)⟩,
            ⟨.GET, r.url ++ "token",
              [("Authorization", "GoogleLogin auth=" ++ r.tokenAuth.getD "")], none⟩,
            ⟨.POST, u ++ "?client=" ++ encodeURIComponent r.client
                ++ "?client=" ++ encodeURIComponent r.client,
              setHeader (setHeader hs "Authorization" ("GoogleLogin auth=" ++ r.tokenAuth.getD ""))
                "Authorization" ("GoogleLogin auth=" ++ r.tokenAuth.getD ""),
              some ((if truthyS r.tokenPost then l ++ [("T", r.tokenPost.getD "")] else l) ++ [("T", resT.body)])⟩,
            .ok res2.body, ?_, rfl, rfl, rfl, rfl, rfl, fun h4 => ?_⟩
          · simp [runReq, reqAux, doFetch, getPostToken, setPostToken,
              buildSearchParams, htruthy, hauto, hok1, hcond, hT, hok2, htPB]
          · rw [h401ok h4] at hok2
            exact Bool.noConfusion hok2
        | true =>
          have htPB : truthyS (some resT.body) = false := by
            simp [truthyS, hpb]
          refine ⟨⟨.POST, u ++ "?client=" ++ encodeURIComponent r.client,
            setHeader hs "Authorization" ("GoogleLogin auth=" ++ r.tokenAuth.getD ""),
            some (if truthyS r.tokenPost then l ++ [("T", r.tokenPost.getD "")] else l)⟩,
            ⟨.GET, r.url ++ "token",
              [("Authorization", "GoogleLogin auth=" ++ r.tokenAuth.getD "")], none⟩,
            ⟨.POST, u ++ "?client=" ++ encodeURIComponent r.client
                ++ "?client=" ++ encodeURIComponent r.client,
              setHeader (setHeader hs "Authorization" ("GoogleLogin auth=" ++ r.tokenAuth.getD ""))
                "Authorization" ("GoogleLogin auth=" ++ r.tokenAuth.getD ""),
              some ((if truthyS r.tokenPost then l ++ [("T", r.tokenPost.getD "")] else l))⟩,
            .ok res2.body, ?_, rfl, rfl, rfl, rfl, rfl, fun h4 => ?_⟩
          · simp [runReq, reqAux, doFetch, getPostToken, setPostToken,
              buildSearchParams, htruthy, hauto, hok1, hcond, hT, hok2, htPB]
          · rw [h401ok h4] at hok2
            exact Bool.noConfusion hok2
  · intro hT
    refine ⟨⟨.POST, u ++ "?client=" ++ encodeURIComponent r.client,
      setHeader hs "Authorization" ("GoogleLogin auth=" ++ r.tokenAuth.getD ""),
      some (if truthyS r.tokenPost then
        buildSearchParams ps ++ [("T", r.tokenPost.getD "")]
      else buildSearchParams ps)⟩,
      ⟨.GET, r.url ++ "token",
        [("Authorization", "GoogleLogin auth=" ++ r.tokenAuth.getD "")], none⟩,
      ?_, rfl, rfl, rfl, rfl⟩
    simp [runReq, reqAux, doFetch, getPostToken, htruthy, hauto, hok1, hcond, hT]

/-- Witness for C1: a concrete POST that gets 401, refreshes once, retries
once, and gets 401 again. -/
theorem post_retry_protocol_witness :
    sampleReader.autoPostToken = true ∧
    truthyS sampleReader.tokenAuth = true ∧
    (⟨false, .POST, [], .usp [("i", "x")], "u/edit-tag", .text⟩ : ReqArgs).method = .POST ∧
    (⟨false, .POST, [], .usp [("i", "x")], "u/edit-tag", .text⟩ : ReqArgs).isRetry = false ∧
    ((⟨401, "bad"⟩ : HttpResponse).status = 400 ∨
      (⟨401, "bad"⟩ : HttpResponse).status = 401) ∧
    ((resOk ⟨200, "FRESH"⟩ = true →
      ∃ (q1 q2 q3 : Request) (out : Except Err String),
        runReq sampleReader ⟨[⟨401, "bad"⟩, ⟨200, "FRESH"⟩, ⟨401, "still"⟩], []⟩ 7
            ⟨false, .POST, [], .usp [("i", "x")], "u/edit-tag", .text⟩ =
          some (out, setPostToken sampleReader "FRESH", ⟨[], [] ++ [q1, q2, q3]⟩) ∧
        q1.method = .POST ∧
        q2.method = .GET ∧ q2.url = sampleReader.url ++ "token" ∧ q2.body = none ∧
        q3.method = .POST ∧
        ((⟨401, "still"⟩ : HttpResponse).status = 401 →
          out = .error (.api "still" 401))) ∧
    (resOk ⟨200, "FRESH"⟩ = false →
      ∃ (q1 q2 : Request),
        runReq sampleReader ⟨[⟨401, "bad"⟩, ⟨200, "FRESH"⟩, ⟨401, "still"⟩], []⟩ 7
            ⟨false, .POST, [], .usp [("i", "x")], "u/edit-tag", .text⟩ =
          some (.error (.api "FRESH" 200), sampleReader,
            ⟨[⟨401, "still"⟩], [] ++ [q1, q2]⟩) ∧
        q1.method = .POST ∧
        q2.method = .GET ∧ q2.url = sampleReader.url ++ "token" ∧ q2.body = none)) :=
  ⟨rfl, by decide, rfl, rfl, Or.inr rfl,
   post_retry_protocol sampleReader [] ⟨401, "bad"⟩ ⟨200, "FRESH"⟩ ⟨401, "still"⟩ [] 7
     ⟨false, .POST, [], .usp [("i", "x")], "u/edit-tag", .text⟩
     rfl (by decide) rfl rfl (Or.inr rfl)⟩

/-- C4 counterexample: `setAllRead` and `addItemTag`/`removeItemTag`
(`_editItemTag`) do not canonicalize a bare identifier — on a bare feed URL
and a bare label name they fail with the local invalid-argument error and
issue no network request (the oracle and log are returned untouched). -/
theorem bare_id_rejected_cex :
    setAllRead sampleReader ⟨[⟨200, "OK"⟩], []⟩ 7 "http://x.com/feed" none =
      some (.error (.invalidArg "invalid Stream ID (got http://x.com/feed)"),
        sampleReader, ⟨[⟨200, "OK"⟩], []⟩) ∧
    editItemTag sampleReader ⟨[⟨200, "OK"⟩], []⟩ 7 ["i1"] ["mylabel"] true =
      some (.error (.invalidArg "tags must be in Stream ID form (got mylabel)"),
        sampleReader, ⟨[⟨200, "OK"⟩], []⟩) := by
  decide

/-- C4 (amended): operations taking identifiers in optional Stream-ID form
(`addFeed`, `removeFeed`, `renameFeed`, `addFeedTag`/`removeFeedTag`,
`getItems` — whose stream ID goes into the request URL — `getItemIds` and
`renameTag`) pass a canonical identifier through unchanged and prepend the
role-appropriate prefix to a bare one; but `setAllRead` and
`addItemTag`/`removeItemTag` do not canonicalize: they require canonical
Stream-ID form and fail with a local error, before any network request, on a
bare identifier. -/
theorem stream_canonicalization_policy :
    (∀ (r : Reader) (net : Net) (now : Nat) (sid : String) (usMax : Option Int),
      isCanonicalStream sid = false →
      setAllRead r net now sid usMax =
        some (.error (.invalidArg ("invalid Stream ID (got " ++ sid ++ ")")), r, net)) ∧
    (∀ (r : Reader) (net : Net) (now : Nat) (itemIds tags : List String) (add : Bool),
      ¬itemIds = [] → ¬tags = [] →
      (∃ t ∈ tags, isCanonicalStream t = false) →
      ∃ t, isCanonicalStream t = false ∧
        editItemTag r net now itemIds tags add =
          some (.error
            (.invalidArg ("tags must be in Stream ID form (got " ++ t ++ ")")),
            r, net)) ∧
    (∀ (sid tag newTag uf : String) (opts : IGetFeedItemOpts)
       (title otag : Option String) (feeds : List String) (add : Bool)
       (feedObjs : List IEditFeed) (rr : Reader),
      (isCanonicalStream sid = true →
        ("s", sid) ∈ encodeObj (getItemIdsParams sid opts)) ∧
      (isCanonicalStream sid = false →
        ("s", STREAM_TYPES .FEED ++ sid) ∈ encodeObj (getItemIdsParams sid opts)) ∧
      (isCanonicalStream tag = true →
        ("s", tag) ∈ encodeObj (renameTagParams tag newTag)) ∧
      (isCanonicalStream tag = false →
        ("s", STREAM_TYPES .LABEL ++ tag) ∈ encodeObj (renameTagParams tag newTag)) ∧
      (isCanonicalStream uf = true → ("s", uf) ∈ addFeedParams uf title otag) ∧
      (isCanonicalStream uf = false →
        ("s", STREAM_TYPES .FEED ++ uf) ∈ addFeedParams uf title otag) ∧
      (∀ id ∈ feeds, isCanonicalStream id = true →
        ("s", id) ∈ removeFeedParams feeds) ∧
      (∀ id ∈ feeds, isCanonicalStream id = false →
        ("s", STREAM_TYPES .FEED ++ id) ∈ removeFeedParams feeds) ∧
      (isCanonicalStream tag = true →
        ((if add then "a" else "r"), tag) ∈ editFeedTagParams feeds tag add) ∧
      (isCanonicalStream tag = false →
        ((if add then "a" else "r"), STREAM_TYPES .LABEL ++ tag)
          ∈ editFeedTagParams feeds tag add) ∧
      (∀ f ∈ feedObjs, isCanonicalStream f.id = true →
        ("s", f.id) ∈ renameFeedParams feedObjs) ∧
      (∀ f ∈ feedObjs, isCanonicalStream f.id = false →
        ("s", STREAM_TYPES .FEED ++ f.id) ∈ renameFeedParams feedObjs) ∧
      (isCanonicalStream sid = true →
        getItemsUrl rr sid = rr.url ++ "stream/contents/" ++ encodeURIComponent sid) ∧
      (isCanonicalStream sid = false →
        getItemsUrl rr sid =
          rr.url ++ "stream/contents/"
            ++ encodeURIComponent (STREAM_TYPES .FEED ++ sid))) := by
  refine ⟨?_, ?_, ?_⟩
  · intro r net now sid usMax h
    simp [setAllRead, h]
  · intro r net now itemIds tags add h1 h2 hex
    have hsome : (tags.find? fun t => !isCanonicalStream t).isSome := by
      rw [List.find?_isSome]
      obtain ⟨t, ht, hf⟩ := hex
      exact ⟨t, ht, by simp [hf]⟩
    obtain ⟨t, hfind⟩ := Option.isSome_iff_exists.mp hsome
    have hprop := List.find?_some hfind
    refine ⟨t, by simpa using hprop, ?_⟩
    simp [editItemTag, hfind, h1, h2]
  · intro sid tag newTag uf opts title otag feeds add feedObjs rr
    refine ⟨?_, ?_, ?_, ?_, ?_, ?_, ?_, ?_, ?_, ?_, ?_, ?_, ?_, ?_⟩
    · intro h
      simp [getItemIdsParams, encodeObj_cons_some, PVal.toStr,
        ensureStream_id StreamType.FEED h]
    · intro h
      simp [getItemIdsParams, encodeObj_cons_some, PVal.toStr,
        ensureStream_pfx StreamType.FEED h]
    · intro h
      simp [renameTagParams, encodeObj, PVal.toStr, ensureStream_id StreamType.LABEL h]
    · intro h
      simp [renameTagParams, encodeObj, PVal.toStr, ensureStream_pfx StreamType.LABEL h]
    · intro h
      simp [addFeedParams, ensureStream_id StreamType.FEED h]
    · intro h
      simp [addFeedParams, ensureStream_pfx StreamType.FEED h]
    · intro id hid h
      rw [removeFeedParams]
      exact List.mem_cons_of_mem _
        (List.mem_map.mpr ⟨id, hid, by rw [ensureStream_id StreamType.FEED h]⟩)
    · intro id hid h
      rw [removeFeedParams]
      exact List.mem_cons_of_mem _
        (List.mem_map.mpr ⟨id, hid, by rw [ensureStream_pfx StreamType.FEED h]⟩)
    · intro h
      rw [editFeedTagParams]
      exact List.mem_append_right _ (by simp [ensureStream_id StreamType.LABEL h])
    · intro h
      rw [editFeedTagParams]
      exact List.mem_append_right _ (by simp [ensureStream_pfx StreamType.LABEL h])
    · intro f hf h
      rw [renameFeedParams]
      exact List.mem_cons_of_mem _
        (List.mem_flatMap.mpr ⟨f, hf, by simp [ensureStream_id StreamType.FEED h]⟩)
    · intro f hf h
      rw [renameFeedParams]
      exact List.mem_cons_of_mem _
        (List.mem_flatMap.mpr ⟨f, hf, by simp [ensureStream_pfx StreamType.FEED h]⟩)
    · intro h
      rw [getItemsUrl, ensureStream_id StreamType.FEED h]
    · intro h
      rw [getItemsUrl, ensureStream_pfx StreamType.FEED h]

/-- Witness for the amended C4 at concrete identifiers. -/
theorem stream_canonicalization_policy_witness :
    isCanonicalStream "http://b.com/f" = false ∧
    setAllRead sampleReader ⟨[], []⟩ 7 "http://b.com/f" none =
      some (.error (.invalidArg "invalid Stream ID (got http://b.com/f)"),
        sampleReader, ⟨[], []⟩) ∧
    (∃ t, isCanonicalStream t = false ∧
      editItemTag sampleReader ⟨[], []⟩ 7 ["i1"] ["lbl"] true =
        some (.error
          (.invalidArg ("tags must be in Stream ID form (got " ++ t ++ ")")),
          sampleReader, ⟨[], []⟩)) ∧
    ("s", STREAM_TYPES .FEED ++ "http://b.com/f")
      ∈ encodeObj (getItemIdsParams "http://b.com/f" {}) ∧
    ("s", "feed/a") ∈ encodeObj (getItemIdsParams "feed/a" {}) ∧
    ("s", STREAM_TYPES .FEED ++ (⟨"http://b.com/f", none⟩ : IEditFeed).id)
      ∈ renameFeedParams [⟨"http://b.com/f", none⟩] ∧
    getItemsUrl sampleReader "http://b.com/f" =
      sampleReader.url ++ "stream/contents/"
        ++ encodeURIComponent (STREAM_TYPES .FEED ++ "http://b.com/f") :=
  ⟨by decide,
   stream_canonicalization_policy.1 sampleReader ⟨[], []⟩ 7 "http://b.com/f" none
     (by decide),
   stream_canonicalization_policy.2.1 sampleReader ⟨[], []⟩ 7 ["i1"] ["lbl"] true
     (by decide) (by decide) ⟨"lbl", by decide, by decide⟩,
   (stream_canonicalization_policy.2.2 "http://b.com/f" "t" "t2" "uf" {} none none
     [] true [] sampleReader).2.1 (by decide),
   (stream_canonicalization_policy.2.2 "feed/a" "t" "t2" "uf" {} none none
     [] true [] sampleReader).1 (by decide),
   (stream_canonicalization_policy.2.2 "http://b.com/f" "t" "t2" "uf" {} none none
     [] true [⟨"http://b.com/f", none⟩] sampleReader).2.2.2.2.2.2.2.2.2.2.2.1
     ⟨"http://b.com/f", none⟩ (by simp) (by decide),
   (stream_canonicalization_policy.2.2 "http://b.com/f" "t" "t2" "uf" {} none none
     [] true [] sampleReader).2.2.2.2.2.2.2.2.2.2.2.2.2 (by decide)⟩

/-- C7 counterexample: on a 200 response with body `"Auth=X\nb\nc\n"` the
code returns and stores `"c"` (the third line with no `Auth=` occurrence
removed), while parsing "the line beginning with `Auth=`" — the spec-side
reading, `specAuthTokenLine` — yields `"X"`.  The claimed behaviour and the
code disagree on this input. -/
theorem auth_line_search_cex :
    getAuthToken bareReader ⟨[⟨200, "Auth=X\nb\nc\n"⟩], []⟩ "a@b.com" "pw" =
      some (.ok "c", setAuthToken bareReader "c",
        ⟨[], [⟨.POST, "ua", [], some [("Email", "a@b.com"), ("Passwd", "pw")]⟩]⟩) ∧
    specAuthTokenLine "Auth=X\nb\nc\n" = some "X" ∧
    ("c" : String) ≠ "X" := by
  decide

/-- C7 (amended): on every 2xx credential-exchange response whose body has
at least three newline-delimited lines, `getAuthToken` takes the line at
fixed index 2 — not the line beginning with `Auth=` — removes the first
occurrence of `Auth=` from it, stores the result as the auth token and
returns it; in particular the section-8 scenario (base URL
`https://example.com/api`, body `"a\nb\nAuth=TOKEN123\n"`, status 200)
yields `"TOKEN123"` and stores it. -/
theorem auth_token_third_line :
    (∀ (r : Reader) (L : List Request) (u p : String) (res : HttpResponse)
       (rest : List HttpResponse) (line : List Char),
      (u == "") = false → (p == "") = false → resOk res = true →
      (splitNl res.body.data).get? 2 = some line →
      getAuthToken r ⟨res :: rest, L⟩ u p =
        some (.ok (String.mk (removeFirst "Auth=".data line)),
          setAuthToken r (String.mk (removeFirst "Auth=".data line)),
          ⟨rest, L ++ [⟨.POST, r.urlAuth, [],
            some [("Email", u), ("Passwd", p)]⟩]⟩)) ∧
    mkReader { url := "https://example.com/api" } = some exampleReader ∧
    getAuthToken exampleReader ⟨[⟨200, "a\nb\nAuth=TOKEN123\n"⟩], []⟩ "a@b.com" "pw" =
      some (.ok "TOKEN123", setAuthToken exampleReader "TOKEN123",
        ⟨[], [⟨.POST, "https://example.com/api" ++ PATH_AUTH, [],
          some [("Email", "a@b.com"), ("Passwd", "pw")]⟩]⟩) := by
  refine ⟨?_, by decide, by decide⟩
  intro r L u p res rest line hu hp hok hline
  rw [List.get?_eq_getElem?] at hline
  simp [getAuthToken, hu, hp, doFetch, hok, hline]

/-- Witness for the amended C7 at a concrete body. -/
theorem auth_token_third_line_witness :
    (("a@b.com" == "") = false) ∧ (("pw" == "") = false) ∧
    resOk ⟨200, "k\nl\nAuth=T\n"⟩ = true ∧
    (splitNl ("k\nl\nAuth=T\n" : String).data).get? 2 =
      some ("Auth=T" : String).data ∧
    getAuthToken bareReader ⟨[⟨200, "k\nl\nAuth=T\n"⟩], []⟩ "a@b.com" "pw" =
      some (.ok (String.mk (removeFirst "Auth=".data ("Auth=T" : String).data)),
        setAuthToken bareReader
          (String.mk (removeFirst "Auth=".data ("Auth=T" : String).data)),
        ⟨[], [] ++ [⟨.POST, bareReader.urlAuth, [],
          some [("Email", "a@b.com"), ("Passwd", "pw")]⟩]⟩) :=
  ⟨by decide, by decide, by decide, by decide,
   auth_token_third_line.1 bareReader [] "a@b.com" "pw" ⟨200, "k\nl\nAuth=T\n"⟩ []
     ("Auth=T" : String).data (by decide) (by decide) (by decide) (by decide)⟩

/-- C2 (code-bug evidence): the retried request is not the original
descriptor re-issued.  In this concrete run the first attempt POSTs to
`u/edit-tag?client=cl` with body `i=x&T=stale`; after the refresh, the retry
is issued to `u/edit-tag?client=cl?client=cl` (the already-augmented URL is
passed back in and augmented again) with body `i=x&T=stale&T=FRESH` (the
caller's `URLSearchParams` was mutated in place, so the stale token stays in
the body next to the fresh one). -/
theorem retry_descriptor_mutated :
    ∃ q1 q2 q3 : Request,
      runReq sampleReader ⟨[⟨401, "bad"⟩, ⟨200, "FRESH"⟩, ⟨401, "still"⟩], []⟩ 7
          ⟨false, .POST, [], .usp [("i", "x")], "u/edit-tag", .text⟩ =
        some (.error (.api "still" 401), setPostToken sampleReader "FRESH",
          ⟨[], [q1, q2, q3]⟩) ∧
      q1.url = "u/edit-tag?client=cl" ∧
      q1.body = some [("i", "x"), ("T", "stale")] ∧
      q2.url = "u/token" ∧
      q3.url = "u/edit-tag?client=cl?client=cl" ∧
      q3.body = some [("i", "x"), ("T", "stale"), ("T", "FRESH")] ∧
      q3.url ≠ q1.url ∧ q3.body ≠ q1.body := by
  refine ⟨⟨.POST, "u/edit-tag?client=cl",
      [("Authorization", "GoogleLogin auth=AT")],
      some [("i", "x"), ("T", "stale")]⟩,
    ⟨.GET, "u/token", [("Authorization", "GoogleLogin auth=AT")], none⟩,
    ⟨.POST, "u/edit-tag?client=cl?client=cl",
      [("Authorization", "GoogleLogin auth=AT")],
      some [("i", "x"), ("T", "stale"), ("T", "FRESH")]⟩,
    ?_, rfl, rfl, rfl, rfl, rfl, by decide, by decide⟩
  decide

end Seymour
